import Mathlib

/-!
Verification of the sensei control-plane daemon's serial frontend, mapping
processor and event handler, shallowly embedded from the C++ sources under
src/linux/src.  Machine integers are modelled as Nat (with explicit % 2^16
where uint16_t wraps) and Int (for int-typed pin indices); nullable pointers
become Option.
-/

/-- Modelled from the spec: the 3-byte `PACKET_HEADER` signature struct from
common/sensei_serial_protocol.h (that header is not under src/; the shape is
fixed by `compare_packet_header`, which iterates the 3 bytes of `vByte`). -/
structure PACKET_HEADER where
  vByte0 : Nat
  vByte1 : Nat
  vByte2 : Nat
  deriving DecidableEq

/-- Modelled from the spec: the start magic bytes 01 02 03, fixed by the
literal 64-byte test packet in serial_frontend_test.cpp and spec §8
scenario 1. -/
def START_SIGNATURE : PACKET_HEADER := ⟨1, 2, 3⟩

/-- Modelled from the spec: the stop magic bytes 04 05 06, fixed by the same
literal test packet. -/
def STOP_SIGNATURE : PACKET_HEADER := ⟨4, 5, 6⟩

/-- Modelled from the spec: `SENSEI_PAYLOAD_LENGTH` from the protocol header
(not under src/).  A `sSenseiDataPacket` is 64 bytes (spec §8 scenario 1);
subtracting start header (3), cmd (1), sub_cmd (1), continuation (1),
timestamp (4), crc (2) and stop header (3) leaves 49 payload bytes. -/
def SENSEI_PAYLOAD_LENGTH : Nat := 49

/-- Modelled from the spec: `sSenseiDataPacket` (spec §4.3.1).  Field order
follows the in-memory layout forced by the literal test packet and by
`calculate_crc`, which scans `SENSEI_PAYLOAD_LENGTH + 1 + 4` bytes starting
at `payload`: payload is followed by continuation, then timestamp.  Bytes are
Nat < 256, timestamp a Nat < 2^32 stored little-endian, crc a Nat < 2^16. -/
structure sSenseiDataPacket where
  start_header : PACKET_HEADER
  cmd : Nat
  sub_cmd : Nat
  payload : List Nat
  continuation : Nat
  timestamp : Nat
  crc : Nat
  stop_header : PACKET_HEADER
  deriving DecidableEq

/-- Embeds `compare_packet_header` (serial_frontend_internal.h:30-38): the
sum over the three byte positions of `lhv.vByte[i] - rhv.vByte[i]`, computed
in int after the uint8_t operands are promoted. -/
def compare_packet_header (lhv rhv : PACKET_HEADER) : Int :=
  ((lhv.vByte0 : Int) - rhv.vByte0) + ((lhv.vByte1 : Int) - rhv.vByte1)
    + ((lhv.vByte2 : Int) - rhv.vByte2)

/-- Little-endian byte decomposition of the uint32_t timestamp field, as seen
by the byte scan in `calculate_crc`. -/
def timestampBytes (ts : Nat) : List Nat :=
  [ts % 256, ts / 256 % 256, ts / 65536 % 256, ts / 16777216 % 256]

/-- Byte sequence scanned by `calculate_crc`'s loop: starting at `payload`,
`SENSEI_PAYLOAD_LENGTH + sizeof(continuation) + sizeof(timestamp)` bytes,
i.e. the payload followed by continuation and the timestamp bytes. -/
def scannedBytes (p : sSenseiDataPacket) : List Nat :=
  p.payload ++ p.continuation :: timestampBytes p.timestamp

/-- Embeds `calculate_crc` (serial_frontend_internal.h:43-53): a uint16_t
accumulator seeded with `cmd + sub_cmd` to which each scanned byte is added,
wrapping modulo 2^16 at every step. -/
def calculate_crc (p : sSenseiDataPacket) : Nat :=
  (scannedBytes p).foldl (fun s b => (s + b) % 65536) ((p.cmd + p.sub_cmd) % 65536)

/-- Embeds `verify_message` (serial_frontend.cpp:22-34). -/
def verify_message (p : sSenseiDataPacket) : Bool :=
  if compare_packet_header p.start_header START_SIGNATURE ≠ 0
      ∨ compare_packet_header p.stop_header STOP_SIGNATURE ≠ 0 then
    false
  else if calculate_crc p ≠ p.crc then
    false
  else
    true

/-- Spec-worded CRC for the refinement claim about `calculate_crc`: the
unsigned-16 sum of `cmd + sub_cmd + every byte of (continuation, timestamp,
payload)` (spec §4.3.1). -/
def crc_spec (p : sSenseiDataPacket) : Nat :=
  (p.cmd + p.sub_cmd + p.continuation + (timestampBytes p.timestamp).sum
    + p.payload.sum) % 65536

/-- The literal 64-byte packet of spec §8 scenario 1 / the unit test's
`test_msg`, decoded per the layout above: cmd 0xff, timestamp bytes
e8 e2 f6 10 (little-endian 284615400) and crc bytes c3 04 (1219). -/
def literal_test_packet : sSenseiDataPacket :=
  ⟨⟨1, 2, 3⟩, 255, 0,
   [0, 0, 0, 0, 140, 3, 0, 0, 100, 1, 0] ++ List.replicate 38 0,
   0, 284615400, 1219, ⟨4, 5, 6⟩⟩

/-- Packet with start header bytes 02 01 03 (byte differences against the
magic cancel to zero), zero payload, zero crc. -/
def c1_cex_packet : sSenseiDataPacket :=
  ⟨⟨2, 1, 3⟩, 0, 0, List.replicate 49 0, 0, 0, 0, ⟨4, 5, 6⟩⟩

/-- Variant of the literal test packet differing only in the fields the CRC
does not scan (start header and stored crc). -/
def literal_test_packet_variant : sSenseiDataPacket :=
  ⟨⟨9, 9, 9⟩, 255, 0,
   [0, 0, 0, 0, 140, 3, 0, 0, 100, 1, 0] ++ List.replicate 38 0,
   0, 284615400, 0, ⟨4, 5, 6⟩⟩

/-- Embeds the state of `MessageConcatenator`
(serial_frontend_internal.h:187-216): the `_waiting` flag and the two
`SENSEI_PAYLOAD_LENGTH`-byte halves of the `_storage` buffer. -/
structure MessageConcatenator where
  waiting : Bool
  storage_lo : List Nat
  storage_hi : List Nat
  deriving DecidableEq

/-- Fresh concatenator: `_waiting = false`, storage contents immaterial. -/
def MessageConcatenator.create : MessageConcatenator :=
  ⟨false, List.replicate SENSEI_PAYLOAD_LENGTH 0, List.replicate SENSEI_PAYLOAD_LENGTH 0⟩

/-- Embeds `MessageConcatenator::add`: returns the completed payload (if any)
and the successor state.  Branch order matches the source: a non-continuation
packet in the non-waiting state is returned directly; a continuation packet
overwrites the low half and sets waiting; a non-continuation packet in the
waiting state fills the high half and returns the 2-payload buffer. -/
def MessageConcatenator.add (c : MessageConcatenator) (p : sSenseiDataPacket) :
    Option (List Nat) × MessageConcatenator :=
  if c.waiting = false ∧ p.continuation = 0 then
    (some p.payload, c)
  else if p.continuation ≠ 0 then
    (none, ⟨true, p.payload, c.storage_hi⟩)
  else if c.waiting = true ∧ p.continuation = 0 then
    (some (c.storage_lo ++ p.payload), ⟨false, c.storage_lo, p.payload⟩)
  else
    (none, c)

/-- Embeds `CommandErrorCode` (the variants used by
MappingProcessor::apply_command and the mappers, spec §4.4 / §7). -/
inductive CommandErrorCode where
  | OK
  | INVALID_PIN_INDEX
  | INVALID_VALUE
  | UNINITIALIZED_PIN
  | INVALID_COMMAND_FOR_PIN_TYPE
  deriving DecidableEq

/-- Embeds `PinType` (spec §3: `SET_PIN_TYPE {DIGITAL_INPUT | ANALOG_INPUT |
IMU_INPUT | DISABLED}`; the enum declaration itself is not under src/). -/
inductive PinType where
  | DIGITAL_INPUT
  | ANALOG_INPUT
  | IMU_INPUT
  | DISABLED
  deriving DecidableEq

/-- The three concrete mapper classes (DigitalSensorMapper,
AnalogSensorMapper, ImuMapper) reduced to their kind, which is all the claims
below depend on: a C++ object's dynamic type never changes, and
`_mappers[i]->apply_command` cannot reseat the owning unique_ptr slot. -/
inductive MapperKind where
  | Digital
  | Analog
  | Imu
  deriving DecidableEq

/-- Embeds `CommandTag` / `CommandType` with the exhaustive tag list of
spec §3. -/
inductive CommandTag where
  | SET_PIN_TYPE
  | SET_SENDING_MODE
  | SET_SENDING_DELTA_TICKS
  | SET_SAMPLING_RATE
  | SET_ADC_BIT_RESOLUTION
  | SET_LOWPASS_FILTER_ORDER
  | SET_LOWPASS_CUTOFF
  | SET_SLIDER_THRESHOLD
  | SET_INVERT_ENABLED
  | SET_INPUT_SCALE_RANGE
  | SET_OUTPUT_RANGE
  | SEND_DIGITAL_PIN_VALUE
  | ENABLE_SENDING
  | SET_MUTE_STATUS
  | VERIFY_ACKS
  | RELOAD_CONFIG
  deriving DecidableEq

/-- Embeds the command routing target (spec §3). -/
inductive CommandTarget where
  | MAPPING
  | HW_FRONTEND
  | INTERNAL
  deriving DecidableEq

/-- Embeds the `Command` message subclasses flattened into one record:
routing target, tag, the int-typed pin index (`cmd->index()`), and the
`PinType` payload carried by `SetPinTypeCommand` (meaningful only when
`tag = SET_PIN_TYPE`). -/
structure Command where
  target : CommandTarget
  tag : CommandTag
  index : Int
  pin_type : PinType
  deriving DecidableEq

/-- Embeds the MappingProcessor state (mapping_processor.cpp:18-23):
`_max_n_pins` and the mapper vector, each slot an owning pointer that is
either null or a mapper of one of the three kinds. -/
structure MappingProcessor where
  max_n_pins : Nat
  mappers : List (Option MapperKind)
  deriving DecidableEq

/-- Embeds the MappingProcessor constructor: a vector of `max_n_pins` null
slots. -/
def MappingProcessor.create (n : Nat) : MappingProcessor :=
  ⟨n, List.replicate n none⟩

/-- Embeds `MappingProcessor::apply_command` (mapping_processor.cpp:25-72).
`delegate` stands for the virtual `_mappers[i]->apply_command(cmd)` call on
an existing mapper (the mapper sources are not under src/); the theorems
below hold for every delegate. -/
def MappingProcessor.apply_command (delegate : MapperKind → Command → CommandErrorCode)
    (mp : MappingProcessor) (cmd : Command) : CommandErrorCode × MappingProcessor :=
  if cmd.index < 0 ∨ cmd.index > (mp.max_n_pins : Int) - 1 then
    (CommandErrorCode.INVALID_PIN_INDEX, mp)
  else if cmd.tag = CommandTag.SET_PIN_TYPE then
    match cmd.pin_type with
    | PinType.DIGITAL_INPUT =>
        (CommandErrorCode.OK,
         ⟨mp.max_n_pins, mp.mappers.set cmd.index.toNat (some MapperKind.Digital)⟩)
    | PinType.ANALOG_INPUT =>
        (CommandErrorCode.OK,
         ⟨mp.max_n_pins, mp.mappers.set cmd.index.toNat (some MapperKind.Analog)⟩)
    | PinType.IMU_INPUT =>
        (CommandErrorCode.OK,
         ⟨mp.max_n_pins, mp.mappers.set cmd.index.toNat (some MapperKind.Imu)⟩)
    | PinType.DISABLED => (CommandErrorCode.INVALID_VALUE, mp)
  else
    match mp.mappers.getD cmd.index.toNat none with
    | none => (CommandErrorCode.UNINITIALIZED_PIN, mp)
    | some k => (delegate k cmd, mp)

/-- Modelled from the spec: per-mapper config command application (the
Digital/Analog/Imu mapper sources are not under src/).  Spec §4.4 says the
mapper returns `OK`, `INVALID_COMMAND_FOR_PIN_TYPE` or `INVALID_VALUE`; the
claims settled here do not depend on which, so `OK` is returned.  Used only
to instantiate the delegate parameter in witnesses. -/
def mapper_apply_command (_k : MapperKind) (_cmd : Command) : CommandErrorCode :=
  CommandErrorCode.OK

/-- Internal messages producible by the serial frontend's
`create_internal_message` (`_message_factory.make_digital_value` /
`make_analog_value`). -/
inductive InternalMessage where
  | digitalValue (index : Nat) (value : Nat) (timestamp : Nat)
  | analogValue (index : Nat) (value : Nat) (timestamp : Nat)
  deriving DecidableEq

/-- Modelled from the spec: numeric value of `SENSEI_CMD::GET_VALUE` (the
protocol header is not under src/); an arbitrary distinct value, no claim
depends on the numeral. -/
def SENSEI_CMD_GET_VALUE : Nat := 2

/-- Modelled from the spec: numeric value of `SENSEI_CMD::GET_ALL_VALUES`. -/
def SENSEI_CMD_GET_ALL_VALUES : Nat := 3

/-- Modelled from the spec: numeric value of `PIN_DIGITAL_INPUT`. -/
def PIN_DIGITAL_INPUT : Nat := 1

/-- Modelled from the spec: numeric value of `PIN_ANALOG_INPUT`. -/
def PIN_ANALOG_INPUT : Nat := 2

/-- Field `pin_id` of the packed `teensy_value_msg` overlay
(serial_frontend_internal.h:221-226): uint16_t at payload bytes 0-1,
little-endian. -/
def payload_pin_id (pl : List Nat) : Nat := pl.getD 0 0 + 256 * pl.getD 1 0

/-- Field `value` of `teensy_value_msg`: uint16_t at payload bytes 2-3. -/
def payload_value (pl : List Nat) : Nat := pl.getD 2 0 + 256 * pl.getD 3 0

/-- Field `pin_type` of `teensy_value_msg`: uint8_t at payload byte 4. -/
def payload_pin_type (pl : List Nat) : Nat := pl.getD 4 0

/-- Embeds `SerialFrontend::create_internal_message`
(serial_frontend.cpp:182-210): on a GET_VALUE / GET_ALL_VALUES packet the
payload is read through the value-message overlay and a digital or analog
value message is built from the raw `pin_id` field; all other pin types, the
ACK case and the default case leave the message null.  Note the function
consults no pin-to-id table. -/
def create_internal_message (p : sSenseiDataPacket) : Option InternalMessage :=
  if p.cmd = SENSEI_CMD_GET_VALUE ∨ p.cmd = SENSEI_CMD_GET_ALL_VALUES then
    if payload_pin_type p.payload = PIN_DIGITAL_INPUT then
      some (InternalMessage.digitalValue (payload_pin_id p.payload)
              (payload_value p.payload) p.timestamp)
    else if payload_pin_type p.payload = PIN_ANALOG_INPUT then
      some (InternalMessage.analogValue (payload_pin_id p.payload)
              (payload_value p.payload) p.timestamp)
    else
      none
  else
    none

/-- Embeds one iteration of `SerialFrontend::read_loop`
(serial_frontend.cpp:129-156) for a packet-sized read: the guard is literally
`if (_muted == false && verify_message(packet) == false) continue;`, after
which any non-null internal message is pushed onto the out queue. -/
def read_loop_step (muted : Bool) (p : sSenseiDataPacket)
    (out_queue : List InternalMessage) : List InternalMessage :=
  if muted = false ∧ verify_message p = false then
    out_queue
  else
    match create_internal_message p with
    | some m => out_queue ++ [m]
    | none => out_queue

/-- Valid analog value packet: cmd GET_VALUE, payload overlay
{pin_id 12, value 35, pin_type PIN_ANALOG_INPUT}, timestamp 1234, correct
crc (2 + 49 + 214 = 265). -/
def analog_value_packet : sSenseiDataPacket :=
  ⟨⟨1, 2, 3⟩, 2, 0, [12, 0, 35, 0, 2] ++ List.replicate 44 0, 0, 1234, 265, ⟨4, 5, 6⟩⟩

/-- The same analog value packet with a corrupted crc field (9999 instead of
265), so `verify_message` rejects it. -/
def corrupt_value_packet : sSenseiDataPacket :=
  ⟨⟨1, 2, 3⟩, 2, 0, [12, 0, 35, 0, 2] ++ List.replicate 44 0, 0, 1234, 9999, ⟨4, 5, 6⟩⟩

/-- A pin-to-id table as in spec §8 scenario 3 and the unit test
`test_process_serial_packet`: hardware pin 12 maps to logical sensor index
10. -/
def pin_to_id_table : Nat → Nat := fun p => if p = 12 then 10 else 0

/-- Modelled from the spec: stands for the nine `_packet_factory.make_*`
calls (the packet factory source is not under src/).  Each returns a pointer
to a freshly filled, framed packet — never null; the packet's contents are
irrelevant to the claims settled here, so a fixed framed packet is
produced. -/
def factory_packet (_cmd : Command) : sSenseiDataPacket :=
  ⟨START_SIGNATURE, 0, 0, List.replicate SENSEI_PAYLOAD_LENGTH 0, 0, 0, 0, STOP_SIGNATURE⟩

/-- Embeds `SerialFrontend::create_send_command`
(serial_frontend.cpp:216-287): nine command tags are encoded through the
packet factory, every other tag falls to the default case and returns a null
packet pointer. -/
def create_send_command (cmd : Command) : Option sSenseiDataPacket :=
  match cmd.tag with
  | CommandTag.SET_SAMPLING_RATE => some (factory_packet cmd)
  | CommandTag.SET_PIN_TYPE => some (factory_packet cmd)
  | CommandTag.SET_SENDING_MODE => some (factory_packet cmd)
  | CommandTag.SET_SENDING_DELTA_TICKS => some (factory_packet cmd)
  | CommandTag.SET_ADC_BIT_RESOLUTION => some (factory_packet cmd)
  | CommandTag.SET_LOWPASS_FILTER_ORDER => some (factory_packet cmd)
  | CommandTag.SET_LOWPASS_CUTOFF => some (factory_packet cmd)
  | CommandTag.SET_SLIDER_THRESHOLD => some (factory_packet cmd)
  | CommandTag.SEND_DIGITAL_PIN_VALUE => some (factory_packet cmd)
  | _ => none

/-- Embeds the pop-encode-write body of `SerialFrontend::write_loop`
(serial_frontend.cpp:161-177): the pointer returned by
`create_send_command` is handed to `sp_nonblocking_write` with no null
check, so the write of `sizeof(sSenseiDataPacket)` bytes is well-defined
exactly when the result is non-null. -/
def write_loop_step (cmd : Command) : Option sSenseiDataPacket :=
  create_send_command cmd

/-- Modelled from the spec: `config::HwFrontendConfig` (config backend not
under src/); only its role matters here — it is the by-reference out
parameter of `BaseConfiguration::read` that `reload_config` declares locally
and discards. -/
def HwFrontendConfig : Type := Unit

/-- State touched by the event handler when a command stream is replayed:
the mapping processor and the to-frontend queue (event_handler.h:46-52). -/
structure EventHandlerState where
  processor : MappingProcessor
  to_frontend_queue : List Command
  deriving DecidableEq

/-- Embeds the event handler's command routing (spec §4.2): `MAPPING`
commands are applied to the mapping processor, `HW_FRONTEND` commands are
enqueued on the to-frontend queue, `INTERNAL` commands mutate handler flags
not modelled here. -/
def handle_command (delegate : MapperKind → Command → CommandErrorCode)
    (st : EventHandlerState) (cmd : Command) : EventHandlerState :=
  match cmd.target with
  | CommandTarget.MAPPING =>
      ⟨(MappingProcessor.apply_command delegate st.processor cmd).2, st.to_frontend_queue⟩
  | CommandTarget.HW_FRONTEND =>
      ⟨st.processor, st.to_frontend_queue ++ [cmd]⟩
  | CommandTarget.INTERNAL => st

/-- Modelled from the spec: `BaseConfiguration::read` (config backend not
under src/; only its caller `EventHandler::reload_config` is,
event_handler.h:34-38).  Spec §4.2/§6: reading the configuration source
replays it as a command stream applied through the event handler, and fills
the caller's `HwFrontendConfig` out parameter with the transport
configuration. -/
def config_backend_read (source : List Command)
    (delegate : MapperKind → Command → CommandErrorCode)
    (st : EventHandlerState) : HwFrontendConfig × EventHandlerState :=
  ((), source.foldl (handle_command delegate) st)

/-- Embeds `EventHandler::reload_config` (event_handler.h:34-38): declares a
local `HwFrontendConfig hwc`, calls `_config_backend->read(hwc)`, and lets
`hwc` go out of scope — the replay effect of the read is what remains. -/
def reload_config (source : List Command)
    (delegate : MapperKind → Command → CommandErrorCode)
    (st : EventHandlerState) : EventHandlerState :=
  let hwc_and_state := config_backend_read source delegate st
  hwc_and_state.2

/-- Three-pin processor whose slot 0 already holds a Digital mapper. -/
def c5_mp : MappingProcessor := ⟨3, [some MapperKind.Digital, none, none]⟩

/-- SET_PIN_TYPE(ANALOG_INPUT) command for pin 0. -/
def c5_cmd : Command :=
  ⟨CommandTarget.MAPPING, CommandTag.SET_PIN_TYPE, 0, PinType.ANALOG_INPUT⟩

/-- Command with the out-of-range index -1. -/
def c6_cmd_neg : Command :=
  ⟨CommandTarget.MAPPING, CommandTag.SET_SENDING_MODE, -1, PinType.DISABLED⟩

/-- Command with index `max_n_pins` (3 on a three-pin processor). -/
def c6_cmd_max : Command :=
  ⟨CommandTarget.MAPPING, CommandTag.SET_PIN_TYPE, 3, PinType.ANALOG_INPUT⟩

/-- Command with index `max_n_pins + 1`. -/
def c6_cmd_over : Command :=
  ⟨CommandTarget.MAPPING, CommandTag.SET_PIN_TYPE, 4, PinType.ANALOG_INPUT⟩

/-- Non-SET_PIN_TYPE command aimed at the empty slot 1. -/
def c6_cmd_uninit : Command :=
  ⟨CommandTarget.MAPPING, CommandTag.SET_SENDING_MODE, 1, PinType.DISABLED⟩

/-- Continuation packet (first half), payload of 49 ones. -/
def c7_p1 : sSenseiDataPacket :=
  ⟨⟨1, 2, 3⟩, 0, 0, List.replicate 49 1, 1, 0, 0, ⟨4, 5, 6⟩⟩

/-- Final packet (second half), payload of 49 twos. -/
def c7_p2 : sSenseiDataPacket :=
  ⟨⟨1, 2, 3⟩, 0, 0, List.replicate 49 2, 0, 0, 0, ⟨4, 5, 6⟩⟩

/-- Stand-alone packet (no continuation), payload of 49 threes. -/
def c7_p3 : sSenseiDataPacket :=
  ⟨⟨1, 2, 3⟩, 0, 0, List.replicate 49 3, 0, 0, 0, ⟨4, 5, 6⟩⟩

/-- SET_PIN_TYPE(DISABLED) command for pin 1, which apply_command rejects
with INVALID_VALUE. -/
def c9_cmd : Command :=
  ⟨CommandTarget.MAPPING, CommandTag.SET_PIN_TYPE, 1, PinType.DISABLED⟩

/-- One-command configuration source: SET_PIN_TYPE(ANALOG_INPUT) on pin 0,
routed to the mapping processor. -/
def c8_source : List Command :=
  [⟨CommandTarget.MAPPING, CommandTag.SET_PIN_TYPE, 0, PinType.ANALOG_INPUT⟩]

/-- Event-handler state with a fresh four-pin processor and an empty
to-frontend queue. -/
def c8_state : EventHandlerState := ⟨MappingProcessor.create 4, []⟩

theorem foldl_add_mod (l : List Nat) (a : Nat) :
    l.foldl (fun s b => (s + b) % 65536) (a % 65536) = (a + l.sum) % 65536 := by
  induction l generalizing a with
  | nil => simp
  | cons b t ih =>
      simp only [List.foldl_cons, List.sum_cons]
      rw [Nat.mod_add_mod, ih (a + b), Nat.add_assoc]

theorem calculate_crc_eq_crc_spec (p : sSenseiDataPacket) :
    calculate_crc p = crc_spec p := by
  unfold calculate_crc crc_spec scannedBytes
  rw [foldl_add_mod]
  simp only [List.sum_append, List.sum_cons]
  omega

/-- C1 counterexample: the claim "`verify_message(P)` returns true only if
P's start_header equals the start magic bytes" is false: a packet whose start
header bytes are 02 01 03 (differences against 01 02 03 cancel to a zero
sum) passes verification with a matching crc. -/
theorem c1_counterexample :
    verify_message c1_cex_packet = true ∧ c1_cex_packet.start_header ≠ START_SIGNATURE := by
  constructor
  · decide
  · decide

/-- C1 (amended): `verify_message(P)` returns true iff the int sum of
bytewise differences between P's start_header and the start magic is zero,
the same sum for P's stop_header and the stop magic is zero, and
`calculate_crc(P)` equals `P.crc`.  Header byte-equality implies a zero sum
but not conversely, so equality of headers plus a crc match is sufficient
but not necessary for acceptance. -/
theorem spec_c1 (p : sSenseiDataPacket) :
    verify_message p = true ↔
      (compare_packet_header p.start_header START_SIGNATURE = 0
        ∧ compare_packet_header p.stop_header STOP_SIGNATURE = 0
        ∧ calculate_crc p = p.crc) := by
  by_cases ha : compare_packet_header p.start_header START_SIGNATURE = 0 <;>
    by_cases hb : compare_packet_header p.stop_header STOP_SIGNATURE = 0 <;>
      by_cases hc : calculate_crc p = p.crc <;>
        simp [verify_message, ha, hb, hc]

/-- C2: `calculate_crc` equals the spec-worded unsigned-16 sum of cmd,
sub_cmd and every byte of the continuation, timestamp and payload fields,
and it is a pure function of exactly those fields: two packets agreeing on
them (whatever their headers and stored crc) get identical CRCs. -/
theorem spec_c2 (p q : sSenseiDataPacket)
    (hcmd : p.cmd = q.cmd) (hsub : p.sub_cmd = q.sub_cmd)
    (hcont : p.continuation = q.continuation) (hts : p.timestamp = q.timestamp)
    (hpl : p.payload = q.payload) :
    calculate_crc p = crc_spec p ∧ calculate_crc p = calculate_crc q := by
  refine ⟨calculate_crc_eq_crc_spec p, ?_⟩
  unfold calculate_crc scannedBytes
  rw [hcmd, hsub, hcont, hts, hpl]

theorem spec_c2_witness :
    calculate_crc literal_test_packet = crc_spec literal_test_packet ∧
      calculate_crc literal_test_packet = calculate_crc literal_test_packet_variant :=
  spec_c2 literal_test_packet literal_test_packet_variant rfl rfl rfl rfl rfl

/-- C3 (divergence witness): `read_loop`'s guard is
`if (_muted == false && verify_message(packet) == false) continue;`, so with
`_muted = true` the verification is skipped and the decoded message of even
a corrupt packet IS pushed onto the out queue, while the same corrupt packet
is dropped when not muted.  This contradicts the claim that no message is
pushed while muted. -/
theorem spec_c3_divergence :
    verify_message corrupt_value_packet = false ∧
      read_loop_step true corrupt_value_packet [] =
        [InternalMessage.analogValue 12 35 1234] ∧
      read_loop_step false corrupt_value_packet [] = [] := by
  refine ⟨by decide, ?_, by decide⟩
  decide

/-- C4 (divergence witness): `create_internal_message` builds the analog
value message from the raw `pin_id` field of the wire packet — it consults
no pin-to-id table — so the packet {pin_id 12, value 35, timestamp 1234}
yields a message with index 12, which is not the message with the
table-translated logical index `pin_to_id_table 12 = 10` that the claim and
the repository's own unit test require. -/
theorem spec_c4_divergence :
    create_internal_message analog_value_packet =
        some (InternalMessage.analogValue 12 35 1234) ∧
      InternalMessage.analogValue 12 35 1234 ≠
        InternalMessage.analogValue (pin_to_id_table 12) 35 1234 := by
  constructor
  · decide
  · decide

/-- C5: for every in-range pin index, SET_PIN_TYPE with DIGITAL_INPUT /
ANALOG_INPUT / IMU_INPUT installs a mapper of the matching kind at exactly
that slot (replacing whatever was there, all other slots untouched) and
returns OK; any other pin type returns INVALID_VALUE and changes nothing.
The slot thus always holds at most one mapper, of the kind of the last
successfully applied SET_PIN_TYPE. -/
theorem spec_c5 (delegate : MapperKind → Command → CommandErrorCode)
    (mp : MappingProcessor) (cmd : Command)
    (h0 : 0 ≤ cmd.index) (h1 : cmd.index ≤ (mp.max_n_pins : Int) - 1)
    (htag : cmd.tag = CommandTag.SET_PIN_TYPE) :
    (cmd.pin_type = PinType.DIGITAL_INPUT →
      MappingProcessor.apply_command delegate mp cmd =
        (CommandErrorCode.OK,
         ⟨mp.max_n_pins, mp.mappers.set cmd.index.toNat (some MapperKind.Digital)⟩)) ∧
    (cmd.pin_type = PinType.ANALOG_INPUT →
      MappingProcessor.apply_command delegate mp cmd =
        (CommandErrorCode.OK,
         ⟨mp.max_n_pins, mp.mappers.set cmd.index.toNat (some MapperKind.Analog)⟩)) ∧
    (cmd.pin_type = PinType.IMU_INPUT →
      MappingProcessor.apply_command delegate mp cmd =
        (CommandErrorCode.OK,
         ⟨mp.max_n_pins, mp.mappers.set cmd.index.toNat (some MapperKind.Imu)⟩)) ∧
    (cmd.pin_type ≠ PinType.DIGITAL_INPUT → cmd.pin_type ≠ PinType.ANALOG_INPUT →
      cmd.pin_type ≠ PinType.IMU_INPUT →
      MappingProcessor.apply_command delegate mp cmd =
        (CommandErrorCode.INVALID_VALUE, mp)) := by
  have hguard : ¬(cmd.index < 0 ∨ cmd.index > (mp.max_n_pins : Int) - 1) := by omega
  cases hpt : cmd.pin_type <;>
    simp [MappingProcessor.apply_command, hguard, htag, hpt]

theorem spec_c5_witness :
    MappingProcessor.apply_command mapper_apply_command c5_mp c5_cmd =
      (CommandErrorCode.OK, ⟨3, [some MapperKind.Analog, none, none]⟩) := by
  have h := (spec_c5 mapper_apply_command c5_mp c5_cmd (by decide) (by decide) rfl).2.1 rfl
  simpa using h

/-- C6: a command whose index is outside [0, max_n_pins - 1] gets
INVALID_PIN_INDEX whatever its tag, with the processor unchanged; an
in-range non-SET_PIN_TYPE command aimed at an empty slot gets
UNINITIALIZED_PIN, with the processor unchanged. -/
theorem spec_c6 (delegate : MapperKind → Command → CommandErrorCode)
    (mp : MappingProcessor) (cmd : Command) :
    ((cmd.index < 0 ∨ cmd.index > (mp.max_n_pins : Int) - 1) →
      MappingProcessor.apply_command delegate mp cmd =
        (CommandErrorCode.INVALID_PIN_INDEX, mp)) ∧
    (0 ≤ cmd.index → cmd.index ≤ (mp.max_n_pins : Int) - 1 →
      cmd.tag ≠ CommandTag.SET_PIN_TYPE →
      mp.mappers.getD cmd.index.toNat none = none →
      MappingProcessor.apply_command delegate mp cmd =
        (CommandErrorCode.UNINITIALIZED_PIN, mp)) := by
  constructor
  · intro h
    simp [MappingProcessor.apply_command, h]
  · intro h0 h1 htag hslot
    have hguard : ¬(cmd.index < 0 ∨ cmd.index > (mp.max_n_pins : Int) - 1) := by omega
    unfold MappingProcessor.apply_command
    rw [if_neg hguard, if_neg htag, hslot]

theorem spec_c6_witness :
    MappingProcessor.apply_command mapper_apply_command (MappingProcessor.create 3) c6_cmd_neg =
        (CommandErrorCode.INVALID_PIN_INDEX, MappingProcessor.create 3) ∧
      MappingProcessor.apply_command mapper_apply_command (MappingProcessor.create 3) c6_cmd_max =
        (CommandErrorCode.INVALID_PIN_INDEX, MappingProcessor.create 3) ∧
      MappingProcessor.apply_command mapper_apply_command (MappingProcessor.create 3) c6_cmd_over =
        (CommandErrorCode.INVALID_PIN_INDEX, MappingProcessor.create 3) ∧
      MappingProcessor.apply_command mapper_apply_command (MappingProcessor.create 3) c6_cmd_uninit =
        (CommandErrorCode.UNINITIALIZED_PIN, MappingProcessor.create 3) :=
  ⟨(spec_c6 mapper_apply_command (MappingProcessor.create 3) c6_cmd_neg).1 (by decide),
   (spec_c6 mapper_apply_command (MappingProcessor.create 3) c6_cmd_max).1 (by decide),
   (spec_c6 mapper_apply_command (MappingProcessor.create 3) c6_cmd_over).1 (by decide),
   (spec_c6 mapper_apply_command (MappingProcessor.create 3) c6_cmd_uninit).2
     (by decide) (by decide) (by decide) (by decide)⟩

/-- C9: whenever apply_command itself raises INVALID_PIN_INDEX, raises
INVALID_VALUE on a SET_PIN_TYPE command, or raises UNINITIALIZED_PIN, the
mapper array is returned exactly as it was — no slot is created, destroyed
or replaced.  Holds for every mapper delegate. -/
theorem spec_c9 (delegate : MapperKind → Command → CommandErrorCode)
    (mp : MappingProcessor) (cmd : Command)
    (herr : (MappingProcessor.apply_command delegate mp cmd).1 = CommandErrorCode.INVALID_PIN_INDEX
      ∨ (cmd.tag = CommandTag.SET_PIN_TYPE ∧
          (MappingProcessor.apply_command delegate mp cmd).1 = CommandErrorCode.INVALID_VALUE)
      ∨ (MappingProcessor.apply_command delegate mp cmd).1 = CommandErrorCode.UNINITIALIZED_PIN) :
    (MappingProcessor.apply_command delegate mp cmd).2 = mp := by
  by_cases hg : cmd.index < 0 ∨ cmd.index > (mp.max_n_pins : Int) - 1
  · simp [MappingProcessor.apply_command, hg]
  · by_cases ht : cmd.tag = CommandTag.SET_PIN_TYPE
    · cases hpt : cmd.pin_type <;>
        simp [MappingProcessor.apply_command, hg, ht, hpt] at herr ⊢
    · unfold MappingProcessor.apply_command
      rw [if_neg hg, if_neg ht]
      cases hslot : mp.mappers.getD cmd.index.toNat none <;> simp [hslot]

theorem spec_c9_witness :
    (MappingProcessor.apply_command mapper_apply_command (MappingProcessor.create 3) c9_cmd).2 =
      MappingProcessor.create 3 :=
  spec_c9 mapper_apply_command (MappingProcessor.create 3) c9_cmd
    (Or.inr (Or.inl ⟨rfl, by decide⟩))

/-- C7: from the non-waiting state, `add` on a continuation packet stores
its payload and returns null with the state now waiting; `add` of the next
non-continuation packet returns exactly the first payload followed by the
second — a buffer of 2 * SENSEI_PAYLOAD_LENGTH bytes when both payloads are
full-length — and never more than those two halves; a non-continuation
packet arriving in the non-waiting state is returned directly as a single
payload. -/
theorem spec_c7 (c : MessageConcatenator) (p1 p2 p3 : sSenseiDataPacket)
    (hw : c.waiting = false) (h1 : p1.continuation ≠ 0) (h2 : p2.continuation = 0)
    (h3 : p3.continuation = 0)
    (hl1 : p1.payload.length = SENSEI_PAYLOAD_LENGTH)
    (hl2 : p2.payload.length = SENSEI_PAYLOAD_LENGTH) :
    (c.add p1).1 = none ∧
      (c.add p1).2.waiting = true ∧
      ((c.add p1).2.add p2).1 = some (p1.payload ++ p2.payload) ∧
      (∀ buf, ((c.add p1).2.add p2).1 = some buf →
        buf.length = 2 * SENSEI_PAYLOAD_LENGTH) ∧
      (c.add p3).1 = some p3.payload := by
  refine ⟨?_, ?_, ?_, ?_, ?_⟩ <;>
    simp_all [MessageConcatenator.add]
  omega

theorem spec_c7_witness :
    (MessageConcatenator.create.add c7_p1).1 = none ∧
      (MessageConcatenator.create.add c7_p1).2.waiting = true ∧
      ((MessageConcatenator.create.add c7_p1).2.add c7_p2).1 =
        some (List.replicate 49 1 ++ List.replicate 49 2) ∧
      (∀ buf, ((MessageConcatenator.create.add c7_p1).2.add c7_p2).1 = some buf →
        buf.length = 2 * SENSEI_PAYLOAD_LENGTH) ∧
      (MessageConcatenator.create.add c7_p3).1 = some (List.replicate 49 3) :=
  spec_c7 MessageConcatenator.create c7_p1 c7_p2 c7_p3 rfl (by decide) rfl rfl
    (by decide) (by decide)

/-- C8: `reload_config` re-reads the configuration source through the config
backend and the read replays the configuration as a command stream applied
through the event handler; concretely, reloading a one-command
SET_PIN_TYPE(ANALOG_INPUT) source installs the Analog mapper on a fresh
processor, so the configuration is not merely read and discarded (only the
local HwFrontendConfig out-value is dropped). -/
theorem spec_c8 :
    (∀ (source : List Command) (delegate : MapperKind → Command → CommandErrorCode)
        (st : EventHandlerState),
      reload_config source delegate st = source.foldl (handle_command delegate) st) ∧
      (reload_config c8_source mapper_apply_command c8_state).processor.mappers =
        [some MapperKind.Analog, none, none, none] := by
  refine ⟨fun source delegate st => rfl, ?_⟩
  decide

/-- C10: the write step of `write_loop` (which hands the packet pointer from
`create_send_command` straight to the serial write, with no null check) is
well-defined — the pointer is non-null — exactly when the popped command's
tag is one of the nine handled by `create_send_command`; every other tag
yields a null packet pointer. -/
theorem spec_c10 (cmd : Command) :
    (write_loop_step cmd).isSome = true ↔
      (cmd.tag = CommandTag.SET_SAMPLING_RATE ∨ cmd.tag = CommandTag.SET_PIN_TYPE ∨
        cmd.tag = CommandTag.SET_SENDING_MODE ∨ cmd.tag = CommandTag.SET_SENDING_DELTA_TICKS ∨
        cmd.tag = CommandTag.SET_ADC_BIT_RESOLUTION ∨ cmd.tag = CommandTag.SET_LOWPASS_FILTER_ORDER ∨
        cmd.tag = CommandTag.SET_LOWPASS_CUTOFF ∨ cmd.tag = CommandTag.SET_SLIDER_THRESHOLD ∨
        cmd.tag = CommandTag.SEND_DIGITAL_PIN_VALUE) := by
  cases htag : cmd.tag <;>
    simp [write_loop_step, create_send_command, htag]
